import Mathlib

/-!
Verification development for the repit-jetson exercise-analysis system.

The core of the system (angle calculator, error rulesets, phase state
machines, rep/hold accumulators, grader, feedback governor) is shallowly
embedded below.  Wall-clock times are modelled as rationals, pixel
coordinates as rationals, and the real-valued angle calculator over ℝ.
The `UniversalTTS` feedback governor is duplicated almost verbatim across
the squat, lunge and plank modules; it is embedded once, parameterized by
the per-exercise error enumeration, priority table, message table and
encouragement cooldown, and instantiated per exercise.
-/

/-- Letter grades produced by the graders. -/
inductive Grade where
  | A
  | B
  | C
  | D
  | F
deriving DecidableEq, Repr

/-- `ComprehensiveSquatGrader.get_grade_from_errors` /
`ComprehensivePlankGrader.get_grade_from_errors`: the grade is a function of
`len(set(errors))`, the number of distinct error kinds, via an if/elif chain. -/
def get_grade_from_errors {E : Type} [DecidableEq E] (errors : List E) : Grade :=
  let num_errors := errors.dedup.length
  if num_errors = 0 then .A
  else if num_errors = 1 then .B
  else if num_errors = 2 then .C
  else if num_errors = 3 then .D
  else .F

/-- Modelled from the spec: `grade(errors) = A if |distinct errors| == 0, B if 1,
C if 2, D if 3, F if ≥4`, as a function of the distinct count alone. -/
def gradeSpec (n : ℕ) : Grade :=
  if n = 0 then .A
  else if n = 1 then .B
  else if n = 2 then .C
  else if n = 3 then .D
  else .F

/-- Priorities attached to feedback events ("normal" / "urgent" / "encouragement"). -/
inductive Priority where
  | normal
  | urgent
  | encouragement
deriving DecidableEq, Repr

/-- Per-exercise data of a `UniversalTTS` instance: the fixed priority ordering
(Safety tier first), the feedback message table, and the encouragement cooldown
(5.0 s in the squat and lunge modules, 10.0 s in the plank module). -/
structure TTSConfig (E : Type) where
  priority_order : List E
  feedback_messages : E → String
  encouragement_cooldown : ℚ

/-- `self.feedback_cooldown = 3.0`: per-error-kind feedback cooldown, seconds. -/
def feedback_cooldown : ℚ := 3

/-- `self.min_feedback_interval = 2.0`: minimum interval between any two feedbacks. -/
def min_feedback_interval : ℚ := 2

/-- Mutable state of a `UniversalTTS` instance.  `current_errors` models the
`current_rep_errors` / `current_hold_errors` attribute that the frame loop
attaches to the TTS object before calling it (`none` = attribute absent);
the Python value is a set (squat/lunge) or a Counter (plank), whose `len`
is the number of distinct error kinds, modelled by `List.dedup.length`. -/
structure TTSState (E : Type) where
  last_feedback_time : E → Option ℚ
  last_general_feedback : ℚ
  feedback_queue : List (String × Priority)
  current_errors : Option (List E)

/-- State of a freshly constructed `UniversalTTS`: empty per-kind timestamp
dictionary, `last_general_feedback = 0`, empty queue, no accumulator attribute. -/
def TTSState.init (E : Type) : TTSState E :=
  { last_feedback_time := fun _ => none
    last_general_feedback := 0
    feedback_queue := []
    current_errors := none }

/-- `UniversalTTS.get_priority_order`: the sub-list of the fixed priority table
consisting of the error kinds present in `errors`, in priority order. -/
def get_priority_order {E : Type} [DecidableEq E] (cfg : TTSConfig E)
    (errors : List E) : List E :=
  cfg.priority_order.filter (fun e => decide (e ∈ errors))

/-- `UniversalTTS.add_feedback`: reject if this kind was emitted within the last
`feedback_cooldown` seconds; reject if anything was emitted within the last
`min_feedback_interval` seconds; if the attached live accumulator holds ≥ 2
distinct kinds, reject unless this kind is the head of its priority ordering;
otherwise enqueue and stamp both timestamps.  (When the accumulator holds ≥ 2
distinct kinds its priority ordering is nonempty, since every error kind occurs
in the priority table, so the `none` head case mirrors unreachable source code.) -/
def add_feedback {E : Type} [DecidableEq E] (cfg : TTSConfig E) (s : TTSState E)
    (error_type : E) (t : ℚ) (p : Priority) : Bool × TTSState E :=
  if (s.last_feedback_time error_type).any
      (fun t0 => decide (t - t0 < feedback_cooldown)) then
    (false, s)
  else if t - s.last_general_feedback < min_feedback_interval then
    (false, s)
  else if s.current_errors.any (fun acc =>
      decide (2 ≤ acc.dedup.length) &&
      decide ((get_priority_order cfg acc).head? ≠ some error_type)) then
    (false, s)
  else
    (true,
      { s with
        feedback_queue :=
          s.feedback_queue ++ [(cfg.feedback_messages error_type, p)]
        last_feedback_time :=
          fun e => if e = error_type then some t else s.last_feedback_time e
        last_general_feedback := t })

/-- The four rotating encouragement messages (identical in all three modules). -/
def encouragements : List String :=
  ["잘 하고 있습니다!", "자세를 유지하세요!", "한 번 더 힘내세요!", "훌륭합니다!"]

/-- `UniversalTTS.add_encouragement`: gated only by the general last-emission
timestamp against the per-exercise encouragement cooldown; on acceptance it
enqueues `encouragements[idx % 4]` and stamps the general timestamp. -/
def add_encouragement {E : Type} (cfg : TTSConfig E) (s : TTSState E)
    (idx : ℕ) (t : ℚ) : TTSState E :=
  if t - s.last_general_feedback < cfg.encouragement_cooldown then s
  else
    { s with
      feedback_queue := s.feedback_queue ++
        [(encouragements.getD (idx % encouragements.length) "",
          Priority.encouragement)]
      last_general_feedback := t }

namespace Squat

/-- The closed squat error enumeration, in the priority-table order of
`UniversalTTS.get_priority_order` (Safety, Effectiveness, Optimization). -/
inductive ErrorKind where
  | lumbarRounding
  | kneeValgus
  | goodMorning
  | chestDrop
  | heelLift
  | pelvicShift
  | insufficientDepth
  | ankleMobility
deriving DecidableEq, Repr

/-- `self.feedback_messages` of the squat `UniversalTTS`. -/
def squatMessages : ErrorKind → String
  | .lumbarRounding => "허리를 펴세요. 엉덩이가 안으로 말리지 않도록 주의하세요."
  | .kneeValgus => "무릎이 발끝 방향을 향하도록 하세요. 안쪽으로 무너지지 마세요."
  | .goodMorning => "상체를 일으키세요. 엉덩이만 먼저 올라가지 않도록 하세요."
  | .chestDrop => "가슴을 펴고 상체를 일으키세요."
  | .heelLift => "뒤꿈치를 바닥에 붙이세요. 무게중심이 앞으로 쏠리지 않도록 하세요."
  | .pelvicShift => "골반을 중앙에 유지하세요. 좌우로 치우치지 마세요."
  | .insufficientDepth => "더 깊게 앉으세요. 허벅지가 지면과 평행이 될 때까지."
  | .ankleMobility => "발목을 더 굽혀보세요. 가동성을 높이세요."

/-- The `priority_order` list of squat `UniversalTTS.get_priority_order`. -/
def squatPriorityOrder : List ErrorKind :=
  [.lumbarRounding, .kneeValgus, .goodMorning, .chestDrop,
   .heelLift, .pelvicShift, .insufficientDepth, .ankleMobility]

/-- The squat module's `UniversalTTS` configuration (encouragement cooldown 5.0 s). -/
def squatConfig : TTSConfig ErrorKind :=
  { priority_order := squatPriorityOrder
    feedback_messages := squatMessages
    encouragement_cooldown := 5 }

/-- `ComprehensiveSquatGrader.get_error_priority`: Safety-tier errors are urgent. -/
def get_error_priority (e : ErrorKind) : Priority :=
  if e ∈ [ErrorKind.lumbarRounding, .kneeValgus, .goodMorning] then .urgent
  else .normal

/-- The `stage` variable of `run_squat_analysis` ("up" / "down"; initially `None`). -/
inductive Stage where
  | up
  | down
deriving DecidableEq, Repr

/-- The `current_phase` strings of `run_squat_analysis` (`blank` models `""`). -/
inductive Phase where
  | blank
  | ready
  | descend
  | bottom
  | ascend
deriving DecidableEq, Repr

/-- The `lm_data` dictionary built by `run_squat_analysis`: 2-D pixel
coordinates of the joints plus the heel visibility scalars.  All keys are
always present once a pose is detected. -/
structure Landmarks where
  left_shoulder : ℚ × ℚ
  left_hip : ℚ × ℚ
  left_knee : ℚ × ℚ
  left_ankle : ℚ × ℚ
  left_foot_index : ℚ × ℚ
  right_shoulder : ℚ × ℚ
  right_hip : ℚ × ℚ
  right_knee : ℚ × ℚ
  right_ankle : ℚ × ℚ
  right_foot_index : ℚ × ℚ
  left_heel_visibility : ℚ
  right_heel_visibility : ℚ
deriving DecidableEq, Repr

/-- The `angles` dictionary (keys `hip`, `knee`, `ankle`, `torso`); `Option`
models the `'key' in angles` checks of `evaluate_errors` (the session loop
always populates all four). -/
structure Angles where
  hip : Option ℚ
  knee : Option ℚ
  ankle : Option ℚ
  torso : Option ℚ
deriving DecidableEq, Repr

/-- `ComprehensiveSquatGrader.evaluate_errors`: the hierarchical per-frame
ruleset.  Level 1 (Safety) fires in DESCEND/BOTTOM/ASCEND, level 2
(Effectiveness) in DESCEND/BOTTOM, level 3 (Optimization) only in BOTTOM.
Errors are appended in source order; the chest-drop rule consults the errors
accumulated so far in this frame.  (The `all([...])` presence check of the
knee-valgus rule is always true since `lm_data` is total.) -/
def evaluate_errors (landmarks : Landmarks) (angles : Angles) (phase : Phase)
    (rep_start_hip_y : ℚ) : List ErrorKind :=
  let level1 : Bool := phase == .descend || phase == .bottom || phase == .ascend
  let level2 : Bool := phase == .descend || phase == .bottom
  let errors : List ErrorKind := []
  let errors :=
    if level1 && angles.hip.any (fun h => decide (h < 65)) then
      errors ++ [.lumbarRounding] else errors
  let knee_dist := |landmarks.left_knee.1 - landmarks.right_knee.1|
  let ankle_dist := |landmarks.left_ankle.1 - landmarks.right_ankle.1|
  let errors :=
    if level1 && decide (0 < ankle_dist ∧ knee_dist < ankle_dist * (85 / 100)) then
      errors ++ [.kneeValgus] else errors
  let hip_y := (landmarks.left_hip.2 + landmarks.right_hip.2) / 2
  let shoulder_y := (landmarks.left_shoulder.2 + landmarks.right_shoulder.2) / 2
  let errors :=
    if level1 && phase == .ascend &&
        decide (hip_y < rep_start_hip_y * (9 / 10) ∧
                shoulder_y > rep_start_hip_y * (95 / 100)) then
      errors ++ [.goodMorning] else errors
  let errors :=
    if level2 && angles.torso.any (fun x => decide (x < 45)) &&
        !(errors.contains .lumbarRounding) then
      errors ++ [.chestDrop] else errors
  let errors :=
    if level2 && (decide (landmarks.left_heel_visibility < 7 / 10) ||
                  decide (landmarks.right_heel_visibility < 7 / 10)) then
      errors ++ [.heelLift] else errors
  let hip_center_x := (landmarks.left_hip.1 + landmarks.right_hip.1) / 2
  let ankle_center_x := (landmarks.left_ankle.1 + landmarks.right_ankle.1) / 2
  let shoulder_width := |landmarks.left_shoulder.1 - landmarks.right_shoulder.1|
  let errors :=
    if level2 && decide (0 < shoulder_width ∧
        |hip_center_x - ankle_center_x| > shoulder_width * (15 / 100)) then
      errors ++ [.pelvicShift] else errors
  let errors :=
    if phase == .bottom && angles.knee.any (fun k => decide (k > 120)) then
      errors ++ [.insufficientDepth] else errors
  let errors :=
    if phase == .bottom && angles.ankle.any (fun k => decide (k > 80)) then
      errors ++ [.ankleMobility] else errors
  errors

/-- One entry of `all_rep_results`: `{'rep': counter, 'grade': g, 'errors': [...]}`. -/
structure RepResult where
  rep : ℕ
  grade : Grade
  errors : List ErrorKind
deriving DecidableEq, Repr

/-- The mutable session variables of `run_squat_analysis`, plus its TTS manager. -/
structure SessionState where
  counter : ℕ
  stage : Option Stage
  all_rep_results : List RepResult
  current_rep_errors : List ErrorKind
  rep_start_hip_y : ℚ
  tts : TTSState ErrorKind

/-- Session variables at initialization (`counter = 0`, `stage = None`, …). -/
def initSession : SessionState :=
  { counter := 0
    stage := none
    all_rep_results := []
    current_rep_errors := []
    rep_start_hip_y := 0
    tts := TTSState.init ErrorKind }

/-- `set.update`: union of the accumulator (a duplicate-free list) with the
errors of the current frame, preserving distinctness. -/
def setUpdate {E : Type} [DecidableEq E] (acc : List E) (l : List E) : List E :=
  l.foldl (fun a e => if e ∈ a then a else a ++ [e]) acc

/-- One pass of the frame loop of `run_squat_analysis` (the block guarded by
`if 'knee' in angles`), given a detected pose, its derived angles, and the
current wall-clock time: stage transitions, rep counting/finalization on the
up-transition, phase derivation, per-frame error evaluation, TTS feedback for
newly seen errors, and accumulator update. -/
def processFrame (st : SessionState) (lm : Landmarks) (angles : Angles)
    (t : ℚ) : SessionState :=
  match angles.knee with
  | none => st
  | some knee_angle =>
    let st : SessionState :=
      if knee_angle > 160 then
        let st : SessionState :=
          if st.stage = some .down then
            let final_grade := get_grade_from_errors st.current_rep_errors
            let st : SessionState := { st with
              all_rep_results := st.all_rep_results ++
                [{ rep := st.counter, grade := final_grade,
                   errors := st.current_rep_errors }] }
            let st : SessionState :=
              if st.counter > 0 then
                { st with tts := add_encouragement squatConfig st.tts st.counter t }
              else st
            { st with current_rep_errors := [] }
          else st
        { st with stage := some .up }
      else st
    let st : SessionState :=
      if knee_angle < 100 ∧ st.stage = some .up then
        { st with
          stage := some .down
          counter := st.counter + 1
          rep_start_hip_y := (lm.left_hip.2 + lm.right_hip.2) / 2 }
      else st
    let current_phase : Phase :=
      match st.stage with
      | some .up => if knee_angle < 170 then .ascend else .ready
      | some .down => if knee_angle < 90 then .bottom else .descend
      | none => .blank
    if st.stage = some .down ∨ st.stage = some .up then
      let errors_in_frame := evaluate_errors lm angles current_phase st.rep_start_hip_y
      let tts := { st.tts with current_errors := some st.current_rep_errors }
      let tts := errors_in_frame.foldl
        (fun a e =>
          if e ∈ st.current_rep_errors then a
          else (add_feedback squatConfig a e t (get_error_priority e)).2)
        tts
      { st with
        tts := tts
        current_rep_errors := setUpdate st.current_rep_errors errors_in_frame }
    else st

/-- End-of-session handling of `run_squat_analysis`: an open repetition
(`stage == 'down'`) is finalized only when `current_rep_errors` is non-empty. -/
def finalizeOpenRep (st : SessionState) : SessionState :=
  if st.stage = some .down ∧ st.current_rep_errors ≠ [] then
    { st with
      all_rep_results := st.all_rep_results ++
        [{ rep := st.counter,
           grade := get_grade_from_errors st.current_rep_errors,
           errors := st.current_rep_errors }] }
  else st

/-- One detected-pose frame fed to the session: landmarks, derived angles,
and the wall-clock time of the frame. -/
structure Frame where
  lm : Landmarks
  angles : Angles
  t : ℚ

/-- A whole squat session over a frame sequence: the per-frame loop followed
by the end-of-session finalization. -/
def runSession (frames : List Frame) : SessionState :=
  finalizeOpenRep
    (frames.foldl (fun st f => processFrame st f.lm f.angles f.t) initSession)

/-- A symmetric, upright, clean-form landmark set used by the synthetic
scenarios: no knee valgus, no pelvic shift, heels fully visible. -/
def cleanLm : Landmarks :=
  { left_shoulder := (30, 10)
    left_hip := (30, 50)
    left_knee := (30, 80)
    left_ankle := (30, 100)
    left_foot_index := (30, 110)
    right_shoulder := (70, 10)
    right_hip := (70, 50)
    right_knee := (70, 80)
    right_ankle := (70, 100)
    right_foot_index := (70, 110)
    left_heel_visibility := 1
    right_heel_visibility := 1 }

/-- Clean-form angle set with a prescribed knee angle: hip 90°, ankle 70°,
torso 90°, violating no rule outside the depth/ankle checks. -/
def cleanAngles (k : ℚ) : Angles :=
  { hip := some 90, knee := some k, ankle := some 70, torso := some 90 }

/-- Scenario B of the spec: the Scenario-A sequence with the knee angle
bottoming at 130° instead of 95°. -/
def scenarioB : List Frame :=
  [⟨cleanLm, cleanAngles 170, 0⟩, ⟨cleanLm, cleanAngles 130, 1⟩,
   ⟨cleanLm, cleanAngles 170, 2⟩]

/-- A session that stops mid-repetition with a clean error set: knee 170°
(stage "up"), then 95° (stage "down", rep counted), then termination. -/
def scenarioOpenCleanRep : List Frame :=
  [⟨cleanLm, cleanAngles 170, 0⟩, ⟨cleanLm, cleanAngles 95, 1⟩]

end Squat

namespace Plank

/-- The closed plank error enumeration, in the priority-table order of the
plank `UniversalTTS.get_priority_order`. -/
inductive ErrorKind where
  | hipSag
  | hipPike
  | neckMisalign
  | elbowMisalign
  | kneeBend
deriving DecidableEq, Repr

/-- `self.feedback_messages` of the plank `UniversalTTS`. -/
def plankMessages : ErrorKind → String
  | .hipSag => "엉덩이를 들어올리세요. 허리가 꺾이지 않도록 주의하세요."
  | .hipPike => "엉덩이를 너무 높이 들지 마세요. 몸을 일직선으로 유지하세요."
  | .neckMisalign => "고개를 똑바로 유지하세요. 목이 꺾이지 않도록 하세요."
  | .elbowMisalign => "팔꿈치를 어깨 바로 아래에 위치시키세요."
  | .kneeBend => "다리를 펴고 긴장을 유지하세요."

/-- The `priority_order` list of the plank `UniversalTTS.get_priority_order`. -/
def plankPriorityOrder : List ErrorKind :=
  [.hipSag, .hipPike, .neckMisalign, .elbowMisalign, .kneeBend]

/-- The plank module's `UniversalTTS` configuration (encouragement cooldown 10.0 s). -/
def plankConfig : TTSConfig ErrorKind :=
  { priority_order := plankPriorityOrder
    feedback_messages := plankMessages
    encouragement_cooldown := 10 }

/-- `ComprehensivePlankGrader.get_error_priority`: hip sag / hip pike are urgent. -/
def get_error_priority (e : ErrorKind) : Priority :=
  if e ∈ [ErrorKind.hipSag, .hipPike] then .urgent else .normal

/-- The plank landmarks consumed by `evaluate_errors` and by the prone-pose
gate of the frame loop (the remaining joints feed only the angle calculation,
which the session model takes as input). -/
structure Landmarks where
  left_shoulder : ℚ × ℚ
  right_shoulder : ℚ × ℚ
  left_hip : ℚ × ℚ
  right_hip : ℚ × ℚ
  left_elbow : ℚ × ℚ
  right_elbow : ℚ × ℚ
deriving DecidableEq, Repr

/-- The plank `angles` dictionary (keys `body`, `neck`, `arm`, `leg`). -/
structure Angles where
  body : Option ℚ
  neck : Option ℚ
  arm : Option ℚ
  leg : Option ℚ
deriving DecidableEq, Repr

/-- `ComprehensivePlankGrader.evaluate_errors`: the hierarchical plank ruleset. -/
def evaluate_errors (angles : Angles) (landmarks : Landmarks) : List ErrorKind :=
  let errors : List ErrorKind := []
  let errors :=
    if angles.body.any (fun b => decide (b > 200)) then
      errors ++ [.hipSag] else errors
  let errors :=
    if angles.body.any (fun b => decide (b < 150)) then
      errors ++ [.hipPike] else errors
  let errors :=
    if angles.neck.any (fun n => decide (¬ (150 ≤ n ∧ n ≤ 210))) then
      errors ++ [.neckMisalign] else errors
  let is_elbow_misaligned :=
    angles.arm.any (fun a => decide (¬ (60 ≤ a ∧ a ≤ 120)))
  let shoulder_x := (landmarks.left_shoulder.1 + landmarks.right_shoulder.1) / 2
  let elbow_x := (landmarks.left_elbow.1 + landmarks.right_elbow.1) / 2
  let shoulder_hip_dist := |landmarks.left_shoulder.1 - landmarks.left_hip.1|
  let is_elbow_pos_off :=
    decide (|shoulder_x - elbow_x| > shoulder_hip_dist * (40 / 100))
  let errors :=
    if is_elbow_misaligned || is_elbow_pos_off then
      errors ++ [.elbowMisalign] else errors
  let errors :=
    if angles.leg.any (fun l => decide (l < 150)) then
      errors ++ [.kneeBend] else errors
  errors

/-- One entry of `all_hold_results`: duration, grade, and the Counter of
per-frame error detections (a Python `Counter` is modelled as the list of all
detections; its key set is `List.dedup`, its counts are `List.count`). -/
structure HoldResult where
  duration : ℚ
  grade : Grade
  errors : List ErrorKind
deriving DecidableEq, Repr

/-- The mutable session variables of `run_plank_analysis`, plus its TTS manager. -/
structure SessionState where
  all_hold_results : List HoldResult
  current_hold_errors : List ErrorKind
  is_holding : Bool
  hold_start_time : ℚ
  tts : TTSState ErrorKind

/-- Session variables at initialization. -/
def initSession : SessionState :=
  { all_hold_results := []
    current_hold_errors := []
    is_holding := false
    hold_start_time := 0
    tts := TTSState.init ErrorKind }

/-- One pass of the frame loop of `run_plank_analysis`, given a detected pose,
its derived angles, and the current wall-clock time.  The prone-pose gate is
`shoulder_y < hip_y + 50`; entering Holding stamps the timer and clears the
accumulator; leaving Holding finalizes a `HoldResult` only when the held
duration exceeds 1 second. -/
def processFrame (st : SessionState) (lm : Landmarks) (angles : Angles)
    (t : ℚ) : SessionState :=
  let shoulder_y := (lm.left_shoulder.2 + lm.right_shoulder.2) / 2
  let hip_y := (lm.left_hip.2 + lm.right_hip.2) / 2
  if shoulder_y < hip_y + 50 then
    let st : SessionState :=
      if !st.is_holding then
        { st with is_holding := true, hold_start_time := t,
                  current_hold_errors := [] }
      else st
    let errors_in_frame := evaluate_errors angles lm
    let tts := { st.tts with current_errors := some st.current_hold_errors }
    let tts := errors_in_frame.foldl
      (fun a e =>
        if e ∈ st.current_hold_errors then a
        else (add_feedback plankConfig a e t (get_error_priority e)).2)
      tts
    { st with
      tts := tts
      current_hold_errors := st.current_hold_errors ++ errors_in_frame }
  else if st.is_holding then
    let hold_duration := t - st.hold_start_time
    let st : SessionState := { st with is_holding := false }
    if hold_duration > 1 then
      { st with
        all_hold_results := st.all_hold_results ++
          [{ duration := hold_duration,
             grade := get_grade_from_errors st.current_hold_errors.dedup,
             errors := st.current_hold_errors }] }
    else st
  else st

/-- End-of-session handling of `run_plank_analysis`: a still-open hold is
finalized exactly when its duration exceeds 1 second. -/
def finalizeOpenHold (st : SessionState) (t : ℚ) : SessionState :=
  if st.is_holding then
    let hold_duration := t - st.hold_start_time
    if hold_duration > 1 then
      { st with
        all_hold_results := st.all_hold_results ++
          [{ duration := hold_duration,
             grade := get_grade_from_errors st.current_hold_errors.dedup,
             errors := st.current_hold_errors }] }
    else st
  else st

end Plank

/-- numpy `arctan2 (y, x)`: the argument of the point `(x, y)`, in `(-π, π]`,
with `arctan2 (0, 0) = 0` — exactly `Complex.arg`. -/
noncomputable def arctan2 (y x : ℝ) : ℝ := Complex.arg ⟨x, y⟩

/-- The absolute angle `|radians · 180 / π|` computed by `calculate_angle`
before folding. -/
noncomputable def rawAngle (a b c : ℝ × ℝ) : ℝ :=
  |(arctan2 (c.2 - b.2) (c.1 - b.1) - arctan2 (a.2 - b.2) (a.1 - b.1)) *
    180 / Real.pi|

/-- `calculate_angle(a, b, c)`: the angle at vertex `b` in degrees; raw angles
above 180° are folded via `360 - angle`. -/
noncomputable def calculate_angle (a b c : ℝ × ℝ) : ℝ :=
  if rawAngle a b c > 180 then 360 - rawAngle a b c else rawAngle a b c

/-- The externally visible calls a frame loop makes into its `UniversalTTS`
instance: an error feedback, an encouragement, or (re)attaching the live
error accumulator. -/
inductive TTSOp (E : Type) where
  | feedback (e : E) (p : Priority)
  | encouragement (idx : ℕ)
  | setErrors (errs : Option (List E))

/-- Apply one timed TTS call to the governor state. -/
def applyOp {E : Type} [DecidableEq E] (cfg : TTSConfig E) (s : TTSState E) :
    TTSOp E × ℚ → TTSState E
  | (.feedback e p, t) => (add_feedback cfg s e t p).2
  | (.encouragement idx, t) => add_encouragement cfg s idx t
  | (.setErrors errs, _) => { s with current_errors := errs }

/-- The times at which a sequence of timed TTS calls actually enqueues a
feedback event (the queue grows). -/
def emissionTimes {E : Type} [DecidableEq E] (cfg : TTSConfig E) :
    TTSState E → List (TTSOp E × ℚ) → List ℚ
  | _, [] => []
  | s, op :: rest =>
    let s' := applyOp cfg s op
    (if s.feedback_queue.length < s'.feedback_queue.length then [op.2] else []) ++
      emissionTimes cfg s' rest

/-- A prone-pose plank landmark set: shoulders level with the hips, elbows
under the shoulders (satisfies the `shoulder_y < hip_y + 50` gate). -/
def proneLm : Plank.Landmarks :=
  { left_shoulder := (0, 0)
    right_shoulder := (0, 0)
    left_hip := (10, 0)
    right_hip := (10, 0)
    left_elbow := (0, 0)
    right_elbow := (0, 0) }

/-- An upright landmark set breaking the prone-pose gate
(`shoulder_y = 200 ≥ hip_y + 50 = 50`). -/
def uprightLm : Plank.Landmarks :=
  { left_shoulder := (0, 200)
    right_shoulder := (0, 200)
    left_hip := (10, 0)
    right_hip := (10, 0)
    left_elbow := (0, 0)
    right_elbow := (0, 0) }

/-- An angle dictionary with no keys present (no angle rules can fire). -/
def noAngles : Plank.Angles := { body := none, neck := none, arm := none, leg := none }

/-- Claim C4: the graders return exactly A/B/C/D/F for 0/1/2/3/≥4 distinct
error kinds; they are total functions; and the grade depends only on the set
of distinct error kinds — it is invariant under reordering, duplication, and
repeated insertion of the same kind. -/
theorem grade_from_errors_spec :
    (∀ l : List Squat.ErrorKind, get_grade_from_errors l = gradeSpec l.dedup.length) ∧
    (∀ l : List Plank.ErrorKind, get_grade_from_errors l = gradeSpec l.dedup.length) ∧
    (∀ l₁ l₂ : List Squat.ErrorKind, (∀ e, e ∈ l₁ ↔ e ∈ l₂) →
      get_grade_from_errors l₁ = get_grade_from_errors l₂) ∧
    (∀ (e : Squat.ErrorKind) (l : List Squat.ErrorKind),
      get_grade_from_errors (e :: e :: l) = get_grade_from_errors (e :: l)) := by
  refine ⟨fun l => rfl, fun l => rfl, ?_, ?_⟩
  · intro l₁ l₂ h
    have hlen : l₁.dedup.length = l₂.dedup.length := by
      rw [← List.card_toFinset, ← List.card_toFinset]
      congr 1
      ext e
      simpa using h e
    unfold get_grade_from_errors
    rw [hlen]
  · intro e l
    unfold get_grade_from_errors
    rw [List.dedup_cons_of_mem (List.mem_cons_self e l)]

/-- Witness for C4 at concrete inputs: `[heelLift, pelvicShift]` and
`[pelvicShift, heelLift, heelLift]` have the same distinct kinds, hence the
same grade. -/
theorem grade_from_errors_spec_witness :
    get_grade_from_errors [Squat.ErrorKind.heelLift, .pelvicShift] =
      get_grade_from_errors [Squat.ErrorKind.pelvicShift, .heelLift, .heelLift] :=
  grade_from_errors_spec.2.2.1 _ _ (by intro e; cases e <;> decide)

/-- Claim C2 (code_bug evidence): on the Scenario-B frame sequence — the
clean Scenario-A sequence with the knee angle bottoming at 130° — the squat
session counts no repetition, produces no `RepResult` at all, and records no
error: the depth rule is gated to the BOTTOM phase, which the session enters
only when the knee angle is below 90°, while the rule itself requires a knee
angle above 120°, so `insufficientDepth` can never fire. -/
theorem scenarioB_produces_no_rep_result :
    (Squat.runSession Squat.scenarioB).counter = 0 ∧
    (Squat.runSession Squat.scenarioB).all_rep_results = [] ∧
    (Squat.runSession Squat.scenarioB).current_rep_errors = [] := by
  refine ⟨?_, ?_, ?_⟩ <;> with_unfolding_all rfl

/-- Membership in a conditional append comes from the prefix or from the
appended tail together with the condition. -/
theorem mem_ite_append_cond {α : Type} {a : α} {c : Prop} [Decidable c]
    {l m : List α} (h : a ∈ if c then l ++ m else l) : a ∈ l ∨ (c ∧ a ∈ m) := by
  split_ifs at h with hc
  · rcases List.mem_append.mp h with h1 | h2
    · exact Or.inl h1
    · exact Or.inr ⟨hc, h2⟩
  · exact Or.inl h

/-- The insufficient-depth rule is dead code under the session's phase
derivation: it fires only in the BOTTOM phase with a knee angle above 120°,
but the squat session assigns BOTTOM only when the knee angle is below 90°,
so whenever the knee angle agrees with the phase the error never appears. -/
theorem insufficientDepth_rule_dead (lm : Squat.Landmarks) (angles : Squat.Angles)
    (phase : Squat.Phase) (r : ℚ)
    (h : phase = .bottom → ∀ k, angles.knee = some k → k < 90) :
    Squat.ErrorKind.insufficientDepth ∉ Squat.evaluate_errors lm angles phase r := by
  intro hmem
  unfold Squat.evaluate_errors at hmem
  rcases mem_ite_append_cond hmem with hmem | ⟨-, hm⟩
  swap
  · simp at hm
  rcases mem_ite_append_cond hmem with hmem | ⟨hc, -⟩
  swap
  · rw [Bool.and_eq_true, beq_iff_eq] at hc
    obtain ⟨hbot, hany⟩ := hc
    cases hknee : angles.knee with
    | none => rw [hknee] at hany; simp [Option.any] at hany
    | some k =>
      rw [hknee] at hany
      simp only [Option.any_some, decide_eq_true_eq] at hany
      have := h hbot k hknee
      linarith
  rcases mem_ite_append_cond hmem with hmem | ⟨-, hm⟩
  swap
  · simp at hm
  rcases mem_ite_append_cond hmem with hmem | ⟨-, hm⟩
  swap
  · simp at hm
  rcases mem_ite_append_cond hmem with hmem | ⟨-, hm⟩
  swap
  · simp at hm
  rcases mem_ite_append_cond hmem with hmem | ⟨-, hm⟩
  swap
  · simp at hm
  rcases mem_ite_append_cond hmem with hmem | ⟨-, hm⟩
  swap
  · simp at hm
  rcases mem_ite_append_cond hmem with hmem | ⟨-, hm⟩
  swap
  · simp at hm
  simp at hmem

/-- Claim C9: a session that stops while a freshly counted repetition is
still open with an empty error set reports a total rep count (1) strictly
above the number of finalized `RepResult`s (0), because the end-of-session
finalization requires a non-empty error set. -/
theorem open_clean_rep_counted_but_unreported :
    (Squat.runSession Squat.scenarioOpenCleanRep).all_rep_results.length <
      (Squat.runSession Squat.scenarioOpenCleanRep).counter ∧
    (Squat.runSession Squat.scenarioOpenCleanRep).counter = 1 ∧
    (Squat.runSession Squat.scenarioOpenCleanRep).all_rep_results = [] ∧
    (Squat.runSession Squat.scenarioOpenCleanRep).stage = some .down ∧
    (Squat.runSession Squat.scenarioOpenCleanRep).current_rep_errors = [] := by
  have h1 : (Squat.runSession Squat.scenarioOpenCleanRep).counter = 1 := by
    with_unfolding_all rfl
  have h2 : (Squat.runSession Squat.scenarioOpenCleanRep).all_rep_results = [] := by
    with_unfolding_all rfl
  refine ⟨?_, h1, h2, by with_unfolding_all rfl, by with_unfolding_all rfl⟩
  rw [h1, h2]
  simp

/-- numpy `arctan2` always lies in `(-π, π]`. -/
theorem arctan2_mem_Ioc (y x : ℝ) : -Real.pi < arctan2 y x ∧ arctan2 y x ≤ Real.pi :=
  ⟨Complex.neg_pi_lt_arg _, Complex.arg_le_pi _⟩

/-- The unfolded absolute angle is nonnegative. -/
theorem rawAngle_nonneg (a b c : ℝ × ℝ) : 0 ≤ rawAngle a b c := abs_nonneg _

/-- The unfolded absolute angle is below 360°, since the two arguments each
lie in `(-π, π]`. -/
theorem rawAngle_lt_360 (a b c : ℝ × ℝ) : rawAngle a b c < 360 := by
  have h1 := arctan2_mem_Ioc (c.2 - b.2) (c.1 - b.1)
  have h2 := arctan2_mem_Ioc (a.2 - b.2) (a.1 - b.1)
  have hpi := Real.pi_pos
  have hd : |arctan2 (c.2 - b.2) (c.1 - b.1) - arctan2 (a.2 - b.2) (a.1 - b.1)| <
      2 * Real.pi := by
    rw [abs_lt]
    constructor <;> nlinarith [h1.1, h1.2, h2.1, h2.2]
  unfold rawAngle
  rw [abs_div, abs_of_pos hpi, abs_mul, div_lt_iff₀ hpi]
  have h180 : |(180 : ℝ)| = 180 := by norm_num
  rw [h180]
  nlinarith [hd, hpi]

/-- Claim C8: for every triple of real 2-D points, including degenerate and
coincident ones, `calculate_angle` returns a value in the closed interval
`[0, 180]`: the raw absolute angle is in `[0, 360)` and values above 180° are
folded via `360 - angle`.  (In the real-number semantics no NaN exists;
numpy's `arctan2` is total with `arctan2(0,0) = 0`, matching `Complex.arg`.) -/
theorem calculate_angle_range (a b c : ℝ × ℝ) :
    0 ≤ calculate_angle a b c ∧ calculate_angle a b c ≤ 180 := by
  unfold calculate_angle
  have h0 := rawAngle_nonneg a b c
  have h360 := rawAngle_lt_360 a b c
  split_ifs with h
  · constructor <;> linarith
  · exact ⟨h0, le_of_not_lt h⟩

/-- Claim C1: whenever the live accumulator attached to the squat governor
holds at least two distinct error kinds, `add_feedback` rejects (returning
`false` with the state unchanged) every error kind other than the head of the
accumulator's priority ordering, regardless of the timestamp state; and the
head itself is accepted and enqueued whenever the per-kind cooldown and the
general minimum interval allow it. -/
theorem add_feedback_priority_arbitration
    (s : TTSState Squat.ErrorKind) (e : Squat.ErrorKind) (t : ℚ) (p : Priority)
    (acc : List Squat.ErrorKind)
    (hacc : s.current_errors = some acc) (hlen : 2 ≤ acc.dedup.length) :
    ((get_priority_order Squat.squatConfig acc).head? ≠ some e →
      add_feedback Squat.squatConfig s e t p = (false, s)) ∧
    ((get_priority_order Squat.squatConfig acc).head? = some e →
      (∀ t0, s.last_feedback_time e = some t0 → feedback_cooldown ≤ t - t0) →
      min_feedback_interval ≤ t - s.last_general_feedback →
      (add_feedback Squat.squatConfig s e t p).1 = true ∧
      (add_feedback Squat.squatConfig s e t p).2.feedback_queue =
        s.feedback_queue ++ [(Squat.squatConfig.feedback_messages e, p)]) := by
  constructor
  · intro hne
    unfold add_feedback
    split_ifs with h1 h2 h3
    · rfl
    · rfl
    · rfl
    · exfalso
      apply h3
      rw [hacc]
      simp only [Option.any_some, Bool.and_eq_true, decide_eq_true_eq]
      exact ⟨hlen, hne⟩
  · intro hhead hcool hgen
    unfold add_feedback
    have h1 : ((s.last_feedback_time e).any
        fun t0 => decide (t - t0 < feedback_cooldown)) = false := by
      cases hlf : s.last_feedback_time e with
      | none => rfl
      | some t0 =>
        simp only [Option.any_some, decide_eq_false_iff_not, not_lt]
        exact hcool t0 hlf
    have h2 : ¬ (t - s.last_general_feedback < min_feedback_interval) :=
      not_lt.mpr hgen
    have h3 : (s.current_errors.any fun acc2 =>
        decide (2 ≤ acc2.dedup.length) &&
        decide ((get_priority_order Squat.squatConfig acc2).head? ≠ some e)) =
          false := by
      rw [hacc]
      simp [hhead]
    rw [h1, if_neg (by simp), if_neg h2, h3]
    simp

/-- Witness for C1: with the accumulator holding the two distinct kinds
`insufficientDepth` and `ankleMobility`, a feedback call for the
lower-priority `ankleMobility` is rejected and leaves the state unchanged. -/
theorem add_feedback_priority_arbitration_witness :
    add_feedback Squat.squatConfig
      { last_feedback_time := fun _ => none
        last_general_feedback := 0
        feedback_queue := []
        current_errors := some [Squat.ErrorKind.insufficientDepth, .ankleMobility] }
      Squat.ErrorKind.ankleMobility 10 Priority.normal =
    (false,
      { last_feedback_time := fun _ => none
        last_general_feedback := 0
        feedback_queue := []
        current_errors := some [Squat.ErrorKind.insufficientDepth, .ankleMobility] }) :=
  (add_feedback_priority_arbitration _ _ _ _ _ rfl (by decide)).1 (by decide)

/-- Claim C5: once `add_feedback` has accepted an error kind at time `t`, a
second `add_feedback` call for the same kind strictly within the 3.0-second
cooldown returns `false` and leaves the governor state — timestamps and queue —
unchanged.  This holds for every exercise instantiation of `UniversalTTS`. -/
theorem add_feedback_cooldown_rejects {E : Type} [DecidableEq E]
    (cfg : TTSConfig E) (s : TTSState E) (e : E) (t : ℚ) (p : Priority)
    (s' : TTSState E) (hacc : add_feedback cfg s e t p = (true, s'))
    (t' : ℚ) (p' : Priority) (hcd : t' - t < feedback_cooldown) :
    add_feedback cfg s' e t' p' = (false, s') := by
  unfold add_feedback at hacc
  split_ifs at hacc
  · exact absurd hacc (by simp)
  · exact absurd hacc (by simp)
  · exact absurd hacc (by simp)
  · simp only [Prod.mk.injEq, true_and] at hacc
    subst hacc
    unfold add_feedback
    rw [if_pos]
    simp only [Option.any_some, if_true]
    simp [hcd]

/-- Witness for C5: the squat governor accepts `heelLift` at `t = 10` from the
initial state, and rejects the same kind again at `t = 11`. -/
theorem add_feedback_cooldown_rejects_witness :
    add_feedback Squat.squatConfig
      ((add_feedback Squat.squatConfig (TTSState.init Squat.ErrorKind)
        Squat.ErrorKind.heelLift 10 Priority.normal).2)
      Squat.ErrorKind.heelLift 11 Priority.normal =
    (false,
      (add_feedback Squat.squatConfig (TTSState.init Squat.ErrorKind)
        Squat.ErrorKind.heelLift 10 Priority.normal).2) :=
  add_feedback_cooldown_rejects Squat.squatConfig (TTSState.init Squat.ErrorKind)
    Squat.ErrorKind.heelLift 10 Priority.normal _ (by with_unfolding_all rfl)
    11 Priority.normal (by norm_num [feedback_cooldown])

/-- Characterization of `add_encouragement` as a single conditional on the
general last-emission timestamp. -/
theorem add_encouragement_eq {E : Type} (cfg : TTSConfig E) (s : TTSState E)
    (idx : ℕ) (t : ℚ) :
    add_encouragement cfg s idx t =
      if cfg.encouragement_cooldown ≤ t - s.last_general_feedback then
        { s with
          feedback_queue := s.feedback_queue ++
            [(encouragements.getD (idx % encouragements.length) "",
              Priority.encouragement)]
          last_general_feedback := t }
      else s := by
  unfold add_encouragement
  split_ifs with h1 h2 <;> first | rfl | linarith

/-- Claim C7: encouragement messages bypass both the per-kind cooldown and the
priority arbitration: `add_encouragement` never reads or writes the per-kind
timestamps or the live accumulator, its behaviour is unchanged under arbitrary
per-kind/accumulator state, and it enqueues exactly when the per-exercise
encouragement cooldown (5.0 s for squat/lunge, 10.0 s for plank) has elapsed
since the last emission of any kind, stamping the general timestamp on
acceptance. -/
theorem add_encouragement_general_gate :
    Squat.squatConfig.encouragement_cooldown = 5 ∧
    Plank.plankConfig.encouragement_cooldown = 10 ∧
    ∀ {E : Type} (cfg : TTSConfig E) (s : TTSState E) (idx : ℕ) (t : ℚ),
      (((add_encouragement cfg s idx t).feedback_queue ≠ s.feedback_queue) ↔
        cfg.encouragement_cooldown ≤ t - s.last_general_feedback) ∧
      (cfg.encouragement_cooldown ≤ t - s.last_general_feedback →
        add_encouragement cfg s idx t =
          { s with
            feedback_queue := s.feedback_queue ++
              [(encouragements.getD (idx % encouragements.length) "",
                Priority.encouragement)]
            last_general_feedback := t }) ∧
      ((add_encouragement cfg s idx t).last_feedback_time =
        s.last_feedback_time) ∧
      ((add_encouragement cfg s idx t).current_errors = s.current_errors) ∧
      (∀ (lf : E → Option ℚ) (ce : Option (List E)),
        add_encouragement cfg
            { s with last_feedback_time := lf, current_errors := ce } idx t =
          { add_encouragement cfg s idx t with
            last_feedback_time := lf, current_errors := ce }) := by
  refine ⟨rfl, rfl, ?_⟩
  intro E cfg s idx t
  rw [add_encouragement_eq]
  split_ifs with h
  · refine ⟨iff_of_true (by simp) h, fun _ => rfl, rfl, rfl, ?_⟩
    intro lf ce
    rw [add_encouragement_eq]
    rw [if_pos h]
  · refine ⟨iff_of_false (fun hq => hq rfl) h, fun hge => absurd hge h, rfl, rfl, ?_⟩
    intro lf ce
    rw [add_encouragement_eq]
    rw [if_neg h]

/-- Witness for C7: from the initial squat governor state, an encouragement at
`t = 7` (7 s ≥ 5 s after the last emission at 0) is accepted, enqueues the
rotating message, and stamps the general timestamp. -/
theorem add_encouragement_general_gate_witness :
    add_encouragement Squat.squatConfig (TTSState.init Squat.ErrorKind) 0 7 =
      { TTSState.init Squat.ErrorKind with
        feedback_queue := (TTSState.init Squat.ErrorKind).feedback_queue ++
          [(encouragements.getD (0 % encouragements.length) "",
            Priority.encouragement)]
        last_general_feedback := 7 } :=
  (add_encouragement_general_gate.2.2 Squat.squatConfig
      (TTSState.init Squat.ErrorKind) 0 7).2.1
    (by norm_num [Squat.squatConfig, TTSState.init])

/-- Claim C3: in the plank state machine, a frame satisfying the prone-pose
gate while not yet holding enters Holding, stamps the timer with the current
time and clears the error accumulator (the post-state accumulator holds only
this frame's detections, independent of the previous accumulator); a frame
breaking the gate while holding leaves Holding and finalizes a `HoldResult`
if and only if the held duration exceeds the 1-second minimum — a shorter
hold is discarded entirely. -/
theorem plank_holding_transitions
    (st : Plank.SessionState) (lm : Plank.Landmarks) (angles : Plank.Angles)
    (t : ℚ) :
    (st.is_holding = false →
      (lm.left_shoulder.2 + lm.right_shoulder.2) / 2 <
        (lm.left_hip.2 + lm.right_hip.2) / 2 + 50 →
      (Plank.processFrame st lm angles t).is_holding = true ∧
      (Plank.processFrame st lm angles t).hold_start_time = t ∧
      (Plank.processFrame st lm angles t).current_hold_errors =
        Plank.evaluate_errors angles lm ∧
      (Plank.processFrame st lm angles t).all_hold_results =
        st.all_hold_results) ∧
    (st.is_holding = true →
      ¬ ((lm.left_shoulder.2 + lm.right_shoulder.2) / 2 <
          (lm.left_hip.2 + lm.right_hip.2) / 2 + 50) →
      (Plank.processFrame st lm angles t).is_holding = false ∧
      (1 < t - st.hold_start_time →
        (Plank.processFrame st lm angles t).all_hold_results =
          st.all_hold_results ++
            [{ duration := t - st.hold_start_time,
               grade := get_grade_from_errors st.current_hold_errors.dedup,
               errors := st.current_hold_errors }]) ∧
      (¬ 1 < t - st.hold_start_time →
        Plank.processFrame st lm angles t = { st with is_holding := false })) ∧
    (st.is_holding = true →
      (1 < t - st.hold_start_time →
        (Plank.finalizeOpenHold st t).all_hold_results =
          st.all_hold_results ++
            [{ duration := t - st.hold_start_time,
               grade := get_grade_from_errors st.current_hold_errors.dedup,
               errors := st.current_hold_errors }]) ∧
      (¬ 1 < t - st.hold_start_time → Plank.finalizeOpenHold st t = st)) := by
  refine ⟨?_, ?_, ?_⟩
  · intro hhold hpose
    unfold Plank.processFrame
    rw [if_pos hpose]
    simp only [hhold, Bool.not_false, if_pos]
    refine ⟨?_, ?_, ?_, ?_⟩ <;> simp
  · intro hhold hpose
    unfold Plank.processFrame
    rw [if_neg hpose]
    simp only [hhold, if_pos]
    refine ⟨?_, ?_, ?_⟩
    · split_ifs <;> rfl
    · intro hdur
      rw [if_pos hdur]
    · intro hdur
      rw [if_neg hdur]
  · intro hhold
    unfold Plank.finalizeOpenHold
    simp only [hhold, if_pos]
    constructor
    · intro hdur
      rw [if_pos hdur]
    · intro hdur
      rw [if_neg hdur]

/-- Witness for C3: entering Holding from the initial state at `t = 2` on a
prone frame with no angle keys, and breaking a hold started at `0` at `t = 3`
(duration 3 > 1), which finalizes one `HoldResult`. -/
theorem plank_holding_transitions_witness :
    ((Plank.processFrame Plank.initSession proneLm noAngles 2).is_holding = true ∧
      (Plank.processFrame Plank.initSession proneLm noAngles 2).hold_start_time = 2 ∧
      (Plank.processFrame Plank.initSession proneLm noAngles 2).current_hold_errors =
        Plank.evaluate_errors noAngles proneLm ∧
      (Plank.processFrame Plank.initSession proneLm noAngles 2).all_hold_results =
        Plank.initSession.all_hold_results) ∧
    ((Plank.processFrame { Plank.initSession with is_holding := true }
        uprightLm noAngles 3).all_hold_results =
      { Plank.initSession with is_holding := true }.all_hold_results ++
        [{ duration := 3 - { Plank.initSession with
              is_holding := true }.hold_start_time,
           grade := get_grade_from_errors
             { Plank.initSession with
                is_holding := true }.current_hold_errors.dedup,
           errors := { Plank.initSession with
              is_holding := true }.current_hold_errors }]) :=
  ⟨(plank_holding_transitions Plank.initSession proneLm noAngles 2).1 rfl
      (by norm_num [proneLm]),
    (((plank_holding_transitions { Plank.initSession with is_holding := true }
        uprightLm noAngles 3).2.1 rfl
      (by norm_num [uprightLm, Plank.initSession])).2.1
      (by norm_num [Plank.initSession]))⟩

/-- Claim C6: when a squat session terminates while a repetition is open
(`stage == 'down'`) with a non-empty accumulated error set, the open interval
is finalized into exactly the `RepResult` that a natural phase end (knee
angle above 160°) would have produced — same rep index, same grade, same
error set — and with two distinct accumulated errors that grade is C. -/
theorem open_rep_finalized_on_termination
    (st : Squat.SessionState) (hstage : st.stage = some .down)
    (herr : st.current_rep_errors ≠ []) :
    (Squat.finalizeOpenRep st).all_rep_results =
      st.all_rep_results ++
        [{ rep := st.counter,
           grade := get_grade_from_errors st.current_rep_errors,
           errors := st.current_rep_errors }] ∧
    (∀ (lm : Squat.Landmarks) (angles : Squat.Angles) (t : ℚ) (k : ℚ),
      angles.knee = some k → k > 160 →
      (Squat.processFrame st lm angles t).all_rep_results =
        st.all_rep_results ++
          [{ rep := st.counter,
             grade := get_grade_from_errors st.current_rep_errors,
             errors := st.current_rep_errors }]) ∧
    (st.current_rep_errors.dedup.length = 2 →
      get_grade_from_errors st.current_rep_errors = Grade.C) := by
  refine ⟨?_, ?_, ?_⟩
  · unfold Squat.finalizeOpenRep
    rw [if_pos ⟨hstage, herr⟩]
  · intro lm angles t k hknee hk
    unfold Squat.processFrame
    rw [hknee]
    simp only [if_pos hk, hstage, if_pos rfl]
    split_ifs <;> rfl
  · intro hlen
    unfold get_grade_from_errors
    rw [hlen]
    rfl

/-- Witness for C6: a state open at rep 1 with the two distinct errors
`heelLift` and `pelvicShift` is finalized on termination with grade C. -/
theorem open_rep_finalized_on_termination_witness :
    (Squat.finalizeOpenRep
      { Squat.initSession with
        counter := 1
        stage := some .down
        current_rep_errors := [.heelLift, .pelvicShift] }).all_rep_results =
      { Squat.initSession with
        counter := 1
        stage := some .down
        current_rep_errors := [.heelLift, .pelvicShift] }.all_rep_results ++
        [{ rep := 1,
           grade := get_grade_from_errors
             ([.heelLift, .pelvicShift] : List Squat.ErrorKind),
           errors := [.heelLift, .pelvicShift] }] ∧
    get_grade_from_errors ([.heelLift, .pelvicShift] : List Squat.ErrorKind) =
      Grade.C :=
  ⟨(open_rep_finalized_on_termination _ rfl (by decide)).1,
    (open_rep_finalized_on_termination
      { Squat.initSession with
        counter := 1
        stage := some .down
        current_rep_errors := [.heelLift, .pelvicShift] } rfl (by decide)).2.2
      (by decide)⟩

/-- Every governor call either leaves the queue length and the general
timestamp unchanged, or enqueues exactly one event at a time at least
`min_feedback_interval` after the previous general timestamp, stamping it. -/
theorem applyOp_queue_lastGeneral {E : Type} [DecidableEq E] (cfg : TTSConfig E)
    (henc : min_feedback_interval ≤ cfg.encouragement_cooldown)
    (s : TTSState E) (op : TTSOp E × ℚ) :
    ((applyOp cfg s op).feedback_queue.length = s.feedback_queue.length ∧
      (applyOp cfg s op).last_general_feedback = s.last_general_feedback) ∨
    (s.feedback_queue.length < (applyOp cfg s op).feedback_queue.length ∧
      (applyOp cfg s op).last_general_feedback = op.2 ∧
      s.last_general_feedback + min_feedback_interval ≤ op.2) := by
  obtain ⟨o, t⟩ := op
  cases o with
  | setErrors errs =>
    left
    exact ⟨rfl, rfl⟩
  | encouragement idx =>
    simp only [applyOp]
    unfold add_encouragement
    split_ifs with h
    · left
      exact ⟨rfl, rfl⟩
    · right
      refine ⟨by simp, rfl, ?_⟩
      have hge := not_lt.mp h
      linarith
  | feedback e p =>
    simp only [applyOp]
    unfold add_feedback
    split_ifs with h1 h2 h3
    · left; exact ⟨rfl, rfl⟩
    · left; exact ⟨rfl, rfl⟩
    · left; exact ⟨rfl, rfl⟩
    · right
      refine ⟨by simp, rfl, ?_⟩
      have hge := not_lt.mp h2
      linarith

/-- Along any sequence of timed governor calls, the emission times are
pairwise at least `min_feedback_interval` apart, and each lies at least
`min_feedback_interval` after the starting general timestamp. -/
theorem emissionTimes_separated {E : Type} [DecidableEq E] (cfg : TTSConfig E)
    (henc : min_feedback_interval ≤ cfg.encouragement_cooldown) :
    ∀ (ops : List (TTSOp E × ℚ)) (s : TTSState E),
      (emissionTimes cfg s ops).Pairwise
        (fun t1 t2 => t1 + min_feedback_interval ≤ t2) ∧
      ∀ a ∈ emissionTimes cfg s ops,
        s.last_general_feedback + min_feedback_interval ≤ a := by
  intro ops
  induction ops with
  | nil =>
    intro s
    exact ⟨List.Pairwise.nil, by intro a ha; simp [emissionTimes] at ha⟩
  | cons op rest ih =>
    intro s
    obtain ⟨hp, hb⟩ := ih (applyOp cfg s op)
    have hstep : emissionTimes cfg s (op :: rest) =
        (if s.feedback_queue.length < (applyOp cfg s op).feedback_queue.length
          then [op.2] else []) ++ emissionTimes cfg (applyOp cfg s op) rest := rfl
    rcases applyOp_queue_lastGeneral cfg henc s op with ⟨hq, hg⟩ | ⟨hq, hg, hsep⟩
    · have hemit : emissionTimes cfg s (op :: rest) =
          emissionTimes cfg (applyOp cfg s op) rest := by
        rw [hstep, if_neg (by rw [hq]; exact lt_irrefl _), List.nil_append]
      rw [hemit]
      refine ⟨hp, fun a ha => ?_⟩
      have := hb a ha
      rw [hg] at this
      exact this
    · have hemit : emissionTimes cfg s (op :: rest) =
          op.2 :: emissionTimes cfg (applyOp cfg s op) rest := by
        rw [hstep, if_pos hq, List.singleton_append]
      rw [hemit]
      have hb2 : ∀ a ∈ emissionTimes cfg (applyOp cfg s op) rest,
          op.2 + min_feedback_interval ≤ a := by
        intro a ha
        have := hb a ha
        rw [hg] at this
        exact this
      refine ⟨List.Pairwise.cons hb2 hp, fun a ha => ?_⟩
      rcases List.mem_cons.mp ha with rfl | ha2
      · exact hsep
      · have h1 := hb2 a ha2
        have hmin : (0 : ℚ) ≤ min_feedback_interval := by
          norm_num [min_feedback_interval]
        linarith

/-- Claim C10: for every sequence of calls — error feedback, encouragement,
or accumulator attachment — on a single `UniversalTTS` instance whose
encouragement cooldown is at least the 2.0-second general minimum interval
(true of all three exercise modules), any two enqueued feedback events are
separated by at least `min_feedback_interval` = 2.0 seconds: every acceptance
path both checks and stamps the general last-emission timestamp. -/
theorem feedback_emissions_separated {E : Type} [DecidableEq E]
    (cfg : TTSConfig E)
    (henc : min_feedback_interval ≤ cfg.encouragement_cooldown)
    (ops : List (TTSOp E × ℚ)) :
    (emissionTimes cfg (TTSState.init E) ops).Pairwise
      (fun t1 t2 => t1 + min_feedback_interval ≤ t2) :=
  (emissionTimes_separated cfg henc ops (TTSState.init E)).1

/-- Witness for C10: a concrete squat-governor trace — two feedback calls and
one encouragement — has pairwise 2.0-second-separated emission times. -/
theorem feedback_emissions_separated_witness :
    (emissionTimes Squat.squatConfig (TTSState.init Squat.ErrorKind)
      [(TTSOp.feedback Squat.ErrorKind.heelLift Priority.normal, 10),
       (TTSOp.feedback Squat.ErrorKind.heelLift Priority.normal, 11),
       (TTSOp.encouragement 1, 20)]).Pairwise
      (fun t1 t2 => t1 + min_feedback_interval ≤ t2) :=
  feedback_emissions_separated Squat.squatConfig
    (by norm_num [min_feedback_interval, Squat.squatConfig]) _
